import Mathlib

/-!
Shallow embedding of the hotel reservation system in
`reservation_system.py`: three JSON documents (hotels, customers,
reservations) with create / delete / modify / cancel operations that
read the whole file, mutate the list in memory and write it back.

The filesystem is modelled per document as a `FileContent`: the file is
absent, present but undecodable (`corrupt`), or holds a decoded list of
records (`valid`).  `read_file` returns the record list (empty on
absence or corruption, as in the Python source); `readMsgs` returns the
lines the Python `read_file` would print; `write_file` replaces the
previous content with a valid serialization of the given list.  Every
operation returns the new `SystemState` together with the list of
printed messages.
-/

/-- A record of the hotels document: fields of `create_hotel`. -/
structure HotelRec where
  hotel_id : Int
  name : String
  location : String
  rooms : Int
deriving Repr, DecidableEq

/-- A record of the customers document: fields of `create_customer`. -/
structure CustomerRec where
  customer_id : Int
  name : String
  email : String
deriving Repr, DecidableEq

/-- A record of the reservations document: fields of `create_reservation`. -/
structure ReservationRec where
  reservation_id : Int
  customer_id : Int
  hotel_id : Int
  room_number : Int
deriving Repr, DecidableEq

/-- Content of one JSON file: missing, undecodable, or a decoded list. -/
inductive FileContent (α : Type) where
  | absent
  | corrupt
  | valid (records : List α)
deriving Repr, DecidableEq

/-- The three files the Python module operates on
    (`hotels.json`, `customers.json`, `reservations.json`). -/
structure SystemState where
  hotelsFile : FileContent HotelRec
  customersFile : FileContent CustomerRec
  reservationsFile : FileContent ReservationRec
deriving Repr, DecidableEq

/-- Data component of Python `read_file`: `[]` when the file does not
    exist, `[]` when `json.load` raises `JSONDecodeError`, otherwise the
    decoded list. -/
def read_file {α : Type} (filename : String) : FileContent α → List α
  | .absent => []
  | .corrupt => []
  | .valid l => l

/-- Output component of Python `read_file`: the corrupt case prints
    an error naming the file; the other cases print nothing. -/
def readMsgs {α : Type} (filename : String) : FileContent α → List String
  | .absent => []
  | .corrupt => ["Error: Invalid data in " ++ filename]
  | .valid _ => []

/-- Python `write_file`: serializes `l`, fully replacing the prior
    content `old`. -/
def write_file {α : Type} (old : FileContent α) (l : List α) : FileContent α :=
  FileContent.valid l

/-- `Hotel.create_hotel`. -/
def create_hotel (s : SystemState) (hid : Int) (hname hloc : String)
    (hrooms : Int) : SystemState × List String :=
  let hotels := read_file "hotels.json" s.hotelsFile
  let msgs := readMsgs "hotels.json" s.hotelsFile
  let newRec : HotelRec :=
    { hotel_id := hid, name := hname, location := hloc, rooms := hrooms }
  if hotels.any (fun h => h.hotel_id == hid) then
    (s, msgs ++ ["Error: Hotel ID already exists."])
  else
    ({ s with hotelsFile := write_file s.hotelsFile (hotels ++ [newRec]) },
     msgs)

/-- `Hotel.delete_hotel`. -/
def delete_hotel (s : SystemState) (hid : Int) : SystemState × List String :=
  let hotels := read_file "hotels.json" s.hotelsFile
  let msgs := readMsgs "hotels.json" s.hotelsFile
  let kept := hotels.filter (fun h => h.hotel_id != hid)
  ({ s with hotelsFile := write_file s.hotelsFile kept }, msgs)

/-- The keyword arguments accepted by `Hotel.modify_hotel_info`:
    each field of the record may or may not be supplied. -/
structure HotelUpdate where
  hotel_id : Option Int
  name : Option String
  location : Option String
  rooms : Option Int
deriving Repr, DecidableEq

/-- Python `dict.update(kwargs)` on a hotel record. -/
def applyHotelUpdate (u : HotelUpdate) (h : HotelRec) : HotelRec :=
  { hotel_id := u.hotel_id.getD h.hotel_id
    name := u.name.getD h.name
    location := u.location.getD h.location
    rooms := u.rooms.getD h.rooms }

/-- The `for ... if ...: update; break` loop of the modify operations:
    apply `f` to the first element satisfying `p`, keep the rest. -/
def updateFirst {α : Type} (p : α → Bool) (f : α → α) : List α → List α
  | [] => []
  | x :: xs => if p x then f x :: xs else x :: updateFirst p f xs

/-- `Hotel.modify_hotel_info`: update the first matching record (the
    `for/else` prints "Hotel not found." only when no record matched),
    then write the file unconditionally. -/
def modify_hotel_info (s : SystemState) (hid : Int) (u : HotelUpdate) :
    SystemState × List String :=
  let hotels := read_file "hotels.json" s.hotelsFile
  let msgs := readMsgs "hotels.json" s.hotelsFile
  let msgs2 := if hotels.any (fun h => h.hotel_id == hid) then msgs
    else msgs ++ ["Hotel not found."]
  let updated :=
    updateFirst (fun h => h.hotel_id == hid) (applyHotelUpdate u) hotels
  ({ s with hotelsFile := write_file s.hotelsFile updated }, msgs2)

/-- `Customer.create_customer`. -/
def create_customer (s : SystemState) (cid : Int) (cname cemail : String) :
    SystemState × List String :=
  let customers := read_file "customers.json" s.customersFile
  let msgs := readMsgs "customers.json" s.customersFile
  let newRec : CustomerRec :=
    { customer_id := cid, name := cname, email := cemail }
  if customers.any (fun c => c.customer_id == cid) then
    (s, msgs ++ ["Error: Customer ID already exists."])
  else
    ({ s with customersFile := write_file s.customersFile
                (customers ++ [newRec]) }, msgs)

/-- `Customer.delete_customer`. -/
def delete_customer (s : SystemState) (cid : Int) : SystemState × List String :=
  let customers := read_file "customers.json" s.customersFile
  let msgs := readMsgs "customers.json" s.customersFile
  let kept := customers.filter (fun c => c.customer_id != cid)
  ({ s with customersFile := write_file s.customersFile kept }, msgs)

/-- The keyword arguments accepted by `Customer.modify_customer_info`. -/
structure CustomerUpdate where
  customer_id : Option Int
  name : Option String
  email : Option String
deriving Repr, DecidableEq

/-- Python `dict.update(kwargs)` on a customer record. -/
def applyCustomerUpdate (u : CustomerUpdate) (c : CustomerRec) : CustomerRec :=
  { customer_id := u.customer_id.getD c.customer_id
    name := u.name.getD c.name
    email := u.email.getD c.email }

/-- `Customer.modify_customer_info`. -/
def modify_customer_info (s : SystemState) (cid : Int) (u : CustomerUpdate) :
    SystemState × List String :=
  let customers := read_file "customers.json" s.customersFile
  let msgs := readMsgs "customers.json" s.customersFile
  let msgs2 := if customers.any (fun c => c.customer_id == cid) then msgs
    else msgs ++ ["Customer not found."]
  let updated :=
    updateFirst (fun c => c.customer_id == cid) (applyCustomerUpdate u)
      customers
  ({ s with customersFile := write_file s.customersFile updated }, msgs2)

/-- `Reservation.create_reservation`: referential checks against the
    customer and hotel documents, then append and write. -/
def create_reservation (s : SystemState) (rid cid hid rnum : Int) :
    SystemState × List String :=
  let reservations := read_file "reservations.json" s.reservationsFile
  let hotels := read_file "hotels.json" s.hotelsFile
  let customers := read_file "customers.json" s.customersFile
  let msgs := readMsgs "reservations.json" s.reservationsFile
    ++ readMsgs "hotels.json" s.hotelsFile
    ++ readMsgs "customers.json" s.customersFile
  let newRec : ReservationRec :=
    { reservation_id := rid, customer_id := cid, hotel_id := hid,
      room_number := rnum }
  if !(customers.any (fun c => c.customer_id == cid)) then
    (s, msgs ++ ["Error: Customer does not exist."])
  else
    match hotels.find? (fun h => h.hotel_id == hid) with
    | none => (s, msgs ++ ["Error: Invalid hotel or room number."])
    | some hotel =>
      if rnum > hotel.rooms then
        (s, msgs ++ ["Error: Invalid hotel or room number."])
      else
        ({ s with reservationsFile := write_file s.reservationsFile
                    (reservations ++ [newRec]) }, msgs)

/-- `Reservation.cancel_reservation`. -/
def cancel_reservation (s : SystemState) (rid : Int) :
    SystemState × List String :=
  let reservations := read_file "reservations.json" s.reservationsFile
  let msgs := readMsgs "reservations.json" s.reservationsFile
  let kept := reservations.filter (fun r => r.reservation_id != rid)
  ({ s with reservationsFile := write_file s.reservationsFile kept }, msgs)

/-! Sample data used by concrete instances: the fixtures of the unit
tests in `reservation_system.py` (`setUp` writes `[]` to all three
files; the tests create Hotel Paradise and John Doe). -/

/-- The state produced by the test `setUp`: all three files hold `[]`. -/
def emptyFiles : SystemState :=
  ⟨FileContent.valid [], FileContent.valid [], FileContent.valid []⟩

/-- The hotel created by the tests. -/
def hotelParadise : HotelRec :=
  { hotel_id := 1, name := "Hotel Paradise", location := "New York",
    rooms := 100 }

/-- The customer created by the tests. -/
def johnDoe : CustomerRec :=
  { customer_id := 1, name := "John Doe", email := "john@example.com" }

/-- State after creating Hotel Paradise and John Doe from `setUp`. -/
def seededState : SystemState :=
  (create_customer
    (create_hotel emptyFiles 1 "Hotel Paradise" "New York" 100).1
    1 "John Doe" "john@example.com").1

/-- Two hotels, as in `test_delete_hotel`. -/
def twoHotelsState : SystemState :=
  ⟨FileContent.valid [hotelParadise,
      { hotel_id := 2, name := "Hotel Sunshine", location := "Los Angeles",
        rooms := 50 }],
   FileContent.valid [], FileContent.valid []⟩

/-- Hotel Paradise, John Doe, and one existing reservation with id 1. -/
def oneReservationState : SystemState :=
  ⟨FileContent.valid [hotelParadise], FileContent.valid [johnDoe],
   FileContent.valid [{ reservation_id := 1, customer_id := 1,
                        hotel_id := 1, room_number := 50 }]⟩

/-- A hotel whose `rooms` value is negative: `create_hotel` never
    validates `rooms`, so such a record is reachable through the API. -/
def hotelBasement : HotelRec :=
  { hotel_id := 1, name := "Hotel Basement", location := "Nowhere",
    rooms := -1 }

/-- An existing customer and the negative-capacity hotel. -/
def negRoomsState : SystemState :=
  ⟨FileContent.valid [hotelBasement], FileContent.valid [johnDoe],
   FileContent.valid []⟩

/-- A second sample hotel with id 2. -/
def hotelB : HotelRec :=
  { hotel_id := 2, name := "Hotel B", location := "Boston", rooms := 20 }

/-- Two hotels with distinct ids 1 and 2, used to show that modifying
    the primary-key field can collide the ids. -/
def dupKeyState : SystemState :=
  ⟨FileContent.valid [hotelParadise, hotelB],
   FileContent.absent, FileContent.absent⟩

/-! Helper lemmas about the list operations the repository uses. -/

/-- `updateFirst` is the identity when no element matches. -/
theorem updateFirst_of_forall_false {α : Type} (p : α → Bool) (f : α → α)
    (l : List α) (h : ∀ x ∈ l, p x = false) : updateFirst p f l = l := by
  induction l with
  | nil => rfl
  | cons x xs ih =>
    simp [updateFirst, h x (List.mem_cons_self x xs),
      ih fun y hy => h y (List.mem_cons_of_mem _ hy)]

/-- `updateFirst` rewrites exactly the first matching element. -/
theorem updateFirst_append {α : Type} (p : α → Bool) (f : α → α)
    (l1 l2 : List α) (x : α) (h1 : ∀ y ∈ l1, p y = false)
    (hx : p x = true) :
    updateFirst p f (l1 ++ x :: l2) = l1 ++ f x :: l2 := by
  induction l1 with
  | nil => simp [updateFirst, hx]
  | cons y ys ih =>
    simp [updateFirst, h1 y (List.mem_cons_self y ys),
      ih fun z hz => h1 z (List.mem_cons_of_mem _ hz)]

/-- Filtering by a key inequality is the identity when no element
    carries the key. -/
theorem filter_bne_eq_self {α : Type} (key : α → Int) (i : Int)
    (l : List α) (h : ∀ x ∈ l, key x ≠ i) :
    l.filter (fun x => key x != i) = l := by
  induction l with
  | nil => rfl
  | cons x xs ih =>
    have hx : (key x != i) = true := by
      simpa using h x (List.mem_cons_self x xs)
    simp [List.filter_cons, hx,
      ih fun y hy => h y (List.mem_cons_of_mem _ hy)]

/-- Reading back a valid file yields its record list. -/
theorem read_file_valid {α : Type} (fn : String) (l : List α) :
    read_file fn (FileContent.valid l) = l := rfl

/-- When the hotel ids of `l` are pairwise distinct, `find?` locates any
    member that carries the searched id. -/
theorem find_first_unique (i : Int) {l : List HotelRec}
    (hu : l.Pairwise (fun a b => a.hotel_id ≠ b.hotel_id))
    {ho : HotelRec} (hmem : ho ∈ l) (hkey : ho.hotel_id = i) :
    l.find? (fun x => x.hotel_id == i) = some ho := by
  induction l with
  | nil => cases hmem
  | cons x xs ih =>
    rcases List.pairwise_cons.mp hu with ⟨hx, hxs⟩
    rcases List.mem_cons.mp hmem with rfl | hmem2
    · simp [List.find?, hkey]
    · have hne : (x.hotel_id == i) = false := by
        simp only [beq_eq_false_iff_ne, ne_eq]
        exact fun he => hx ho hmem2 (he.trans hkey.symm)
      simp [List.find?, hne, ih hxs hmem2]

/-- Claim C6: `read_file` returns an empty sequence, without failing,
    both when the file is absent and when its content cannot be decoded;
    in the corrupt case a message naming the file is reported, in the
    absent case nothing is printed. -/
theorem read_file_absent_or_corrupt {α : Type} (filename : String) :
    read_file filename (FileContent.absent : FileContent α) = []
    ∧ read_file filename (FileContent.corrupt : FileContent α) = []
    ∧ readMsgs filename (FileContent.corrupt : FileContent α)
        = ["Error: Invalid data in " ++ filename]
    ∧ readMsgs filename (FileContent.absent : FileContent α) = [] :=
  ⟨rfl, rfl, rfl, rfl⟩

/-- Claim C7: `write_file` followed by `read_file` on the same name
    returns exactly the written records, and the written content does
    not depend on the prior content of the file (full replacement). -/
theorem write_file_read_file_round_trip {α : Type} (filename : String)
    (old : FileContent α) (l : List α) :
    read_file filename (write_file old l) = l
    ∧ ∀ old2 : FileContent α, write_file old l = write_file old2 l :=
  ⟨rfl, fun _ => rfl⟩

/-- Claim C2: creating a hotel or a customer whose primary key is
    already present performs no write: the whole state after the call
    equals the state before it, so the stored sequence still holds the
    record from the first create. -/
theorem create_duplicate_key_no_mutation (s : SystemState) (i : Int)
    (nm loc : String) (rms : Int) (em : String) :
    ((∃ h0 ∈ read_file "hotels.json" s.hotelsFile, h0.hotel_id = i) →
      (create_hotel s i nm loc rms).1 = s)
    ∧ ((∃ c0 ∈ read_file "customers.json" s.customersFile,
          c0.customer_id = i) →
      (create_customer s i nm em).1 = s) := by
  constructor
  · rintro ⟨h0, hmem, hkey⟩
    have hany : (read_file "hotels.json" s.hotelsFile).any
        (fun h => h.hotel_id == i) = true :=
      List.any_eq_true.mpr ⟨h0, hmem, by simp [hkey]⟩
    simp [create_hotel, hany]
  · rintro ⟨c0, hmem, hkey⟩
    have hany : (read_file "customers.json" s.customersFile).any
        (fun c => c.customer_id == i) = true :=
      List.any_eq_true.mpr ⟨c0, hmem, by simp [hkey]⟩
    simp [create_customer, hany]

/-- Witness for C2: after the test fixtures create hotel 1 and customer
    1, a second create with either id leaves the state untouched. -/
theorem create_duplicate_key_no_mutation_witness :
    (create_hotel seededState 1 "Hotel Sunshine" "Los Angeles" 50).1
        = seededState
    ∧ (create_customer seededState 1 "Jane Doe" "jane@example.com").1
        = seededState :=
  ⟨(create_duplicate_key_no_mutation seededState 1 "Hotel Sunshine"
      "Los Angeles" 50 "jane@example.com").1
      ⟨hotelParadise, by decide, by decide⟩,
   (create_duplicate_key_no_mutation seededState 1 "Jane Doe"
      "Los Angeles" 50 "jane@example.com").2
      ⟨johnDoe, by decide, by decide⟩⟩

/-- Claim C4: `delete_hotel` and `cancel_reservation` persist exactly
    the subsequence of records whose key differs from `id`, in order,
    print nothing of their own, and when no record matches the stored
    sequence is unchanged. -/
theorem delete_persists_filtered_subsequence (s : SystemState) (i : Int) :
    (read_file "hotels.json" ((delete_hotel s i).1).hotelsFile
        = (read_file "hotels.json" s.hotelsFile).filter
            (fun h0 => h0.hotel_id != i)
      ∧ (delete_hotel s i).2 = readMsgs "hotels.json" s.hotelsFile
      ∧ ((∀ h0 ∈ read_file "hotels.json" s.hotelsFile, h0.hotel_id ≠ i) →
          read_file "hotels.json" ((delete_hotel s i).1).hotelsFile
            = read_file "hotels.json" s.hotelsFile))
    ∧ (read_file "reservations.json"
          ((cancel_reservation s i).1).reservationsFile
        = (read_file "reservations.json" s.reservationsFile).filter
            (fun r0 => r0.reservation_id != i)
      ∧ (cancel_reservation s i).2
          = readMsgs "reservations.json" s.reservationsFile
      ∧ ((∀ r0 ∈ read_file "reservations.json" s.reservationsFile,
            r0.reservation_id ≠ i) →
          read_file "reservations.json"
              ((cancel_reservation s i).1).reservationsFile
            = read_file "reservations.json" s.reservationsFile)) := by
  have hd1 : read_file "hotels.json" ((delete_hotel s i).1).hotelsFile
      = (read_file "hotels.json" s.hotelsFile).filter
          (fun h0 => h0.hotel_id != i) := by
    simp [delete_hotel, write_file, read_file]
  have hr1 : read_file "reservations.json"
        ((cancel_reservation s i).1).reservationsFile
      = (read_file "reservations.json" s.reservationsFile).filter
          (fun r0 => r0.reservation_id != i) := by
    simp [cancel_reservation, write_file, read_file]
  refine ⟨⟨hd1, ?_, ?_⟩, ⟨hr1, ?_, ?_⟩⟩
  · simp [delete_hotel]
  · intro hnone
    rw [hd1]
    exact filter_bne_eq_self (fun h0 : HotelRec => h0.hotel_id) i _ hnone
  · simp [cancel_reservation]
  · intro hnone
    rw [hr1]
    exact filter_bne_eq_self (fun r0 : ReservationRec => r0.reservation_id)
      i _ hnone

/-- Witness for C4: deleting the absent hotel id 999 from the two-hotel
    fixture leaves the stored sequence unchanged. -/
theorem delete_persists_filtered_subsequence_witness :
    read_file "hotels.json" ((delete_hotel twoHotelsState 999).1).hotelsFile
      = read_file "hotels.json" twoHotelsState.hotelsFile :=
  (delete_persists_filtered_subsequence twoHotelsState 999).1.2.2 (by decide)

/-- Claim C5: `modify` on an id carried by no record reports
    "not found" and still writes the document, the written sequence
    being exactly the one read at the start of the call. -/
theorem modify_missing_id_writes_unchanged (s : SystemState) (i : Int)
    (uh : HotelUpdate) (uc : CustomerUpdate) :
    ((∀ h0 ∈ read_file "hotels.json" s.hotelsFile, h0.hotel_id ≠ i) →
      ((modify_hotel_info s i uh).1).hotelsFile
          = FileContent.valid (read_file "hotels.json" s.hotelsFile)
        ∧ (modify_hotel_info s i uh).2
          = readMsgs "hotels.json" s.hotelsFile ++ ["Hotel not found."])
    ∧ ((∀ c0 ∈ read_file "customers.json" s.customersFile,
          c0.customer_id ≠ i) →
      ((modify_customer_info s i uc).1).customersFile
          = FileContent.valid (read_file "customers.json" s.customersFile)
        ∧ (modify_customer_info s i uc).2
          = readMsgs "customers.json" s.customersFile
            ++ ["Customer not found."]) := by
  constructor
  · intro hnone
    have hany : (read_file "hotels.json" s.hotelsFile).any
        (fun h => h.hotel_id == i) = false := by
      rw [List.any_eq_false]
      intro x hx
      simpa using hnone x hx
    have hfix : ∀ x ∈ read_file "hotels.json" s.hotelsFile,
        (fun h : HotelRec => h.hotel_id == i) x = false := by
      intro x hx
      simpa using hnone x hx
    constructor
    · simp [modify_hotel_info, write_file,
        updateFirst_of_forall_false _ _ _ hfix]
    · simp [modify_hotel_info, hany]
  · intro hnone
    have hany : (read_file "customers.json" s.customersFile).any
        (fun c => c.customer_id == i) = false := by
      rw [List.any_eq_false]
      intro x hx
      simpa using hnone x hx
    have hfix : ∀ x ∈ read_file "customers.json" s.customersFile,
        (fun c : CustomerRec => c.customer_id == i) x = false := by
      intro x hx
      simpa using hnone x hx
    constructor
    · simp [modify_customer_info, write_file,
        updateFirst_of_forall_false _ _ _ hfix]
    · simp [modify_customer_info, hany]

/-- Witness for C5: modifying hotel 999 and customer 999 in the empty
    fixture writes `[]` back and reports the two "not found" lines, as
    in `test_modify_non_existent_hotel_or_customer`. -/
theorem modify_missing_id_writes_unchanged_witness :
    (((modify_hotel_info emptyFiles 999
          ⟨none, some "Non-existent Hotel", none, some 200⟩).1).hotelsFile
        = FileContent.valid []
      ∧ (modify_hotel_info emptyFiles 999
          ⟨none, some "Non-existent Hotel", none, some 200⟩).2
        = ["Hotel not found."])
    ∧ (((modify_customer_info emptyFiles 999
          ⟨none, some "NA", some "na@ex.com"⟩).1).customersFile
        = FileContent.valid []
      ∧ (modify_customer_info emptyFiles 999
          ⟨none, some "NA", some "na@ex.com"⟩).2
        = ["Customer not found."]) :=
  ⟨(modify_missing_id_writes_unchanged emptyFiles 999
      ⟨none, some "Non-existent Hotel", none, some 200⟩
      ⟨none, some "NA", some "na@ex.com"⟩).1 (by decide),
   (modify_missing_id_writes_unchanged emptyFiles 999
      ⟨none, some "Non-existent Hotel", none, some 200⟩
      ⟨none, some "NA", some "na@ex.com"⟩).2 (by decide)⟩

/-- Claim C3: when a record with the given id is present,
    `modify_customer_info` persists the sequence with that record's
    mentioned fields overwritten by the supplied values, its unmentioned
    fields preserved, and every other record unchanged. -/
theorem modify_customer_present_updates_record (s : SystemState) (i : Int)
    (u : CustomerUpdate) (l1 l2 : List CustomerRec) (cr : CustomerRec)
    (hsplit : read_file "customers.json" s.customersFile = l1 ++ cr :: l2)
    (hfirst : ∀ c2 ∈ l1, c2.customer_id ≠ i)
    (hkey : cr.customer_id = i) :
    read_file "customers.json"
        ((modify_customer_info s i u).1).customersFile
      = l1 ++ applyCustomerUpdate u cr :: l2
    ∧ (∀ v, u.customer_id = some v
        → (applyCustomerUpdate u cr).customer_id = v)
    ∧ (u.customer_id = none
        → (applyCustomerUpdate u cr).customer_id = cr.customer_id)
    ∧ (∀ v, u.name = some v → (applyCustomerUpdate u cr).name = v)
    ∧ (u.name = none → (applyCustomerUpdate u cr).name = cr.name)
    ∧ (∀ v, u.email = some v → (applyCustomerUpdate u cr).email = v)
    ∧ (u.email = none → (applyCustomerUpdate u cr).email = cr.email) := by
  have hup : updateFirst (fun c => c.customer_id == i)
      (applyCustomerUpdate u) (l1 ++ cr :: l2)
      = l1 ++ applyCustomerUpdate u cr :: l2 :=
    updateFirst_append _ _ _ _ _ (fun y hy => by simpa using hfirst y hy)
      (by simp [hkey])
  have hfile : ((modify_customer_info s i u).1).customersFile
      = FileContent.valid (updateFirst (fun c => c.customer_id == i)
          (applyCustomerUpdate u)
          (read_file "customers.json" s.customersFile)) := rfl
  refine ⟨?_, ?_, ?_, ?_, ?_, ?_, ?_⟩
  · rw [hfile, read_file_valid, hsplit, hup]
  · intro v hv
    simp [applyCustomerUpdate, hv]
  · intro hv
    simp [applyCustomerUpdate, hv]
  · intro v hv
    simp [applyCustomerUpdate, hv]
  · intro hv
    simp [applyCustomerUpdate, hv]
  · intro v hv
    simp [applyCustomerUpdate, hv]
  · intro hv
    simp [applyCustomerUpdate, hv]

/-- Witness for C3: the scenario of the claim — create customer 1 as
    John Doe, then modify name and email; the stored record reads
    name "John Smith" and email "js@ex.com". -/
theorem modify_customer_present_updates_record_witness :
    read_file "customers.json"
        ((modify_customer_info
            (create_customer emptyFiles 1 "John Doe" "john@example.com").1
            1 ⟨none, some "John Smith", some "js@ex.com"⟩).1).customersFile
      = [{ customer_id := 1, name := "John Smith",
           email := "js@ex.com" }] := by
  have hw := modify_customer_present_updates_record
      (create_customer emptyFiles 1 "John Doe" "john@example.com").1 1
      ⟨none, some "John Smith", some "js@ex.com"⟩ [] [] johnDoe
      (by decide) (by simp) (by decide)
  rw [hw.1]
  decide

/-- Claim C1: under the documented invariant that hotel ids are
    pairwise distinct, `create_reservation` appends the new record and
    persists the sequence exactly when the customer id exists, the
    hotel id exists and the room number is at most that hotel's rooms
    value; when any condition fails the state, and so the stored
    reservation sequence, is unchanged. -/
theorem create_reservation_referential (s : SystemState) (r c h n : Int)
    (huniq : (read_file "hotels.json" s.hotelsFile).Pairwise
      (fun a b => a.hotel_id ≠ b.hotel_id)) :
    (((∃ c0 ∈ read_file "customers.json" s.customersFile,
          c0.customer_id = c)
        ∧ (∃ h0 ∈ read_file "hotels.json" s.hotelsFile,
            h0.hotel_id = h ∧ n ≤ h0.rooms)) →
      ((create_reservation s r c h n).1).reservationsFile
          = FileContent.valid
              (read_file "reservations.json" s.reservationsFile
                ++ [{ reservation_id := r, customer_id := c,
                      hotel_id := h, room_number := n }])
        ∧ ((create_reservation s r c h n).1).hotelsFile = s.hotelsFile
        ∧ ((create_reservation s r c h n).1).customersFile
          = s.customersFile)
    ∧ (¬((∃ c0 ∈ read_file "customers.json" s.customersFile,
            c0.customer_id = c)
          ∧ (∃ h0 ∈ read_file "hotels.json" s.hotelsFile,
              h0.hotel_id = h ∧ n ≤ h0.rooms)) →
        (create_reservation s r c h n).1 = s) := by
  constructor
  · rintro ⟨⟨c0, hcm, hck⟩, h0, hhm, hhk, hhr⟩
    have hany : (read_file "customers.json" s.customersFile).any
        (fun x => x.customer_id == c) = true :=
      List.any_eq_true.mpr ⟨c0, hcm, by simp [hck]⟩
    have hfind := find_first_unique h huniq hhm hhk
    refine ⟨?_, ?_, ?_⟩ <;>
      simp [create_reservation, hany, hfind, write_file, not_lt.mpr hhr]
  · intro hnot
    cases hany : (read_file "customers.json" s.customersFile).any
        (fun x => x.customer_id == c) with
    | false => simp [create_reservation, hany]
    | true =>
      cases hfind : (read_file "hotels.json" s.hotelsFile).find?
          (fun x => x.hotel_id == h) with
      | none => simp [create_reservation, hany, hfind]
      | some h0 =>
        by_cases hgt : h0.rooms < n
        · simp [create_reservation, hany, hfind, hgt]
        · exfalso
          apply hnot
          constructor
          · obtain ⟨c0, hcm, hck⟩ := List.any_eq_true.mp hany
            exact ⟨c0, hcm, by simpa using hck⟩
          · refine ⟨h0, List.mem_of_find?_eq_some hfind, ?_,
              not_lt.mp hgt⟩
            have hp := List.find?_some hfind
            simpa using hp

/-- Witness for C1: with Hotel Paradise (100 rooms) and John Doe
    created, reserving room 50 appends the record; hotel ids in the
    fixture are pairwise distinct. -/
theorem create_reservation_referential_witness :
    ((create_reservation seededState 1 1 1 50).1).reservationsFile
      = FileContent.valid
          (read_file "reservations.json" seededState.reservationsFile
            ++ [{ reservation_id := 1, customer_id := 1, hotel_id := 1,
                  room_number := 50 }]) :=
  ((create_reservation_referential seededState 1 1 1 50 (by decide)).1
    ⟨⟨johnDoe, by decide, by decide⟩,
     ⟨hotelParadise, by decide, by decide, by decide⟩⟩).1

/-- Claim C8: `create_reservation` never checks `reservation_id`: when
    the customer and hotel checks pass, it appends even though a record
    with the same `reservation_id` is already stored, leaving at least
    two records with that key. -/
theorem create_reservation_ignores_duplicate_id (s : SystemState)
    (r c h n : Int)
    (hdup : ∃ r0 ∈ read_file "reservations.json" s.reservationsFile,
      r0.reservation_id = r)
    (hcust : ∃ c0 ∈ read_file "customers.json" s.customersFile,
      c0.customer_id = c)
    (hhot : ∃ h0, (read_file "hotels.json" s.hotelsFile).find?
        (fun x => x.hotel_id == h) = some h0 ∧ n ≤ h0.rooms) :
    read_file "reservations.json"
        ((create_reservation s r c h n).1).reservationsFile
      = read_file "reservations.json" s.reservationsFile
        ++ [{ reservation_id := r, customer_id := c, hotel_id := h,
              room_number := n }]
    ∧ 2 ≤ ((read_file "reservations.json"
        ((create_reservation s r c h n).1).reservationsFile).countP
          (fun r0 => r0.reservation_id == r)) := by
  obtain ⟨h0, hfind, hle⟩ := hhot
  obtain ⟨c0, hcm, hck⟩ := hcust
  have hany : (read_file "customers.json" s.customersFile).any
      (fun x => x.customer_id == c) = true :=
    List.any_eq_true.mpr ⟨c0, hcm, by simp [hck]⟩
  have happ : read_file "reservations.json"
        ((create_reservation s r c h n).1).reservationsFile
      = read_file "reservations.json" s.reservationsFile
        ++ [{ reservation_id := r, customer_id := c, hotel_id := h,
              room_number := n }] := by
    simp [create_reservation, hany, hfind, write_file, read_file_valid,
      not_lt.mpr hle]
  refine ⟨happ, ?_⟩
  rw [happ, List.countP_append]
  obtain ⟨r0, hrm, hrk⟩ := hdup
  have h1 : 0 < (read_file "reservations.json" s.reservationsFile).countP
      (fun r0 => r0.reservation_id == r) :=
    List.countP_pos_iff.mpr ⟨r0, hrm, by simp [hrk]⟩
  have h2 : (([⟨r, c, h, n⟩] : List ReservationRec).countP
      (fun r0 => r0.reservation_id == r)) = 1 := by
    simp [List.countP_cons]
  omega

/-- Witness for C8: with a stored reservation of id 1, reserving again
    with id 1 leaves two records with key 1. -/
theorem create_reservation_ignores_duplicate_id_witness :
    2 ≤ ((read_file "reservations.json"
        ((create_reservation oneReservationState 1 1 1 50).1).reservationsFile).countP
            (fun r0 => r0.reservation_id == 1)) :=
  (create_reservation_ignores_duplicate_id oneReservationState 1 1 1 50
    ⟨{ reservation_id := 1, customer_id := 1, hotel_id := 1,
       room_number := 50 }, by decide, by decide⟩
    ⟨johnDoe, by decide, by decide⟩
    ⟨hotelParadise, by decide, by decide⟩).2

/-- Claim C9: `modify_hotel_info` accepts an update of the primary key
    itself: starting from hotels with ids 1 and 2, modifying hotel 1
    with `hotel_id=2` persists a document holding two records with
    hotel_id 2. -/
theorem modify_primary_key_collides_ids :
    read_file "hotels.json"
        ((modify_hotel_info dupKeyState 1 ⟨some 2, none, none, none⟩).1).hotelsFile
      = [{ hotel_id := 2, name := "Hotel Paradise", location := "New York",
           rooms := 100 }, hotelB]
    ∧ ((read_file "hotels.json"
        ((modify_hotel_info dupKeyState 1 ⟨some 2, none, none, none⟩).1).hotelsFile).countP
          (fun h0 => h0.hotel_id == 2)) = 2 := by
  constructor <;> decide

/-- Counterexample to C10 as stated: the code also rejects when
    `room_number <= hotel.rooms` fails, which can happen for a
    nonpositive room number because `create_hotel` never validates
    `rooms`: with an existing customer and an existing hotel whose
    rooms value is -1, the call with room_number 0 appends nothing and
    leaves the state unchanged. -/
theorem create_reservation_zero_room_rejected :
    (∃ c0 ∈ read_file "customers.json" negRoomsState.customersFile,
        c0.customer_id = 1)
    ∧ (∃ h0 ∈ read_file "hotels.json" negRoomsState.hotelsFile,
        h0.hotel_id = 1)
    ∧ (create_reservation negRoomsState 1 1 1 0).1 = negRoomsState
    ∧ read_file "reservations.json"
        ((create_reservation negRoomsState 1 1 1 0).1).reservationsFile
      = [] :=
  ⟨⟨johnDoe, by decide, by decide⟩, ⟨hotelBasement, by decide, by decide⟩,
   by decide, by decide⟩

/-- Claim C10 (amended): the only check on `room_number` is the upper
    bound `room_number <= hotel.rooms`; a zero or negative room number
    is accepted and the record appended whenever the referenced hotel's
    rooms value is nonnegative. -/
theorem create_reservation_nonpositive_room_accepted (s : SystemState)
    (r c h n : Int)
    (hcust : ∃ c0 ∈ read_file "customers.json" s.customersFile,
      c0.customer_id = c)
    (hhot : ∃ h0, (read_file "hotels.json" s.hotelsFile).find?
        (fun x => x.hotel_id == h) = some h0 ∧ 0 ≤ h0.rooms)
    (hn : n ≤ 0) :
    read_file "reservations.json"
        ((create_reservation s r c h n).1).reservationsFile
      = read_file "reservations.json" s.reservationsFile
        ++ [{ reservation_id := r, customer_id := c, hotel_id := h,
              room_number := n }] := by
  obtain ⟨h0, hfind, h0r⟩ := hhot
  obtain ⟨c0, hcm, hck⟩ := hcust
  have hany : (read_file "customers.json" s.customersFile).any
      (fun x => x.customer_id == c) = true :=
    List.any_eq_true.mpr ⟨c0, hcm, by simp [hck]⟩
  simp [create_reservation, hany, hfind, write_file, read_file_valid,
    not_lt.mpr (hn.trans h0r)]

/-- Witness for the amended C10: room numbers 0 and -2 are both
    accepted against Hotel Paradise (100 rooms). -/
theorem create_reservation_nonpositive_room_accepted_witness :
    read_file "reservations.json"
        ((create_reservation seededState 1 1 1 0).1).reservationsFile
      = read_file "reservations.json" seededState.reservationsFile
        ++ [{ reservation_id := 1, customer_id := 1, hotel_id := 1,
              room_number := 0 }]
    ∧ read_file "reservations.json"
        ((create_reservation seededState 2 1 1 (-2)).1).reservationsFile
      = read_file "reservations.json" seededState.reservationsFile
        ++ [{ reservation_id := 2, customer_id := 1, hotel_id := 1,
              room_number := -2 }] :=
  ⟨create_reservation_nonpositive_room_accepted seededState 1 1 1 0
     ⟨johnDoe, by decide, by decide⟩
     ⟨hotelParadise, by decide, by decide⟩ (by decide),
   create_reservation_nonpositive_room_accepted seededState 2 1 1 (-2)
     ⟨johnDoe, by decide, by decide⟩
     ⟨hotelParadise, by decide, by decide⟩ (by decide)⟩
